import Mathlib

/-!
Shallow embedding of the hawa-hawai backend (`app.py`): a Flask proxy that
fetches daily climate point data from the NASA POWER API, filters out records
carrying the provider's sentinel missing value (-999.00), classifies parameter
values into category labels via fixed thresholds, and computes category
distributions.

Numeric parameter values are modelled as rationals (ℚ); dates as a record of
year/month/day with proleptic Gregorian calendar rules matching Python's
`datetime`.  The external HTTP provider is modelled as an oracle function from
year to an optional parsed response (`none` covers timeout, transport failure,
non-2xx status, and JSON decode failure, all of which skip the year).
-/

deriving instance DecidableEq for Except

namespace HawaHawai

/-- A calendar date, as in Python `datetime` (year in 1..9999 when valid). -/
structure Date where
  year : Int
  month : Nat
  day : Nat
deriving DecidableEq

/-- Gregorian leap-year rule used by Python `datetime`/`calendar`. -/
def isLeap (y : Int) : Bool :=
  y % 4 == 0 && (y % 100 != 0 || y % 400 == 0)

/-- Number of days in a month of a given year (Gregorian). -/
def daysInMonth (y : Int) (m : Nat) : Nat :=
  if m == 2 then (if isLeap y then 29 else 28)
  else if m == 4 || m == 6 || m == 9 || m == 11 then 30
  else 31

/-- Models the `datetime(year, month, day)` constructor: `some` on a valid
calendar date, `none` when Python would raise `ValueError` (invalid month, day
out of range for the month, or year outside `MINYEAR..MAXYEAR`). -/
def mkDate? (y : Int) (m d : Nat) : Option Date :=
  if 1 ≤ y ∧ y ≤ 9999 ∧ 1 ≤ m ∧ m ≤ 12 ∧ 1 ≤ d ∧ d ≤ daysInMonth y m then
    some ⟨y, m, d⟩
  else none

/-- Successor date (one day later). -/
def nextDay (dt : Date) : Date :=
  if dt.day < daysInMonth dt.year dt.month then ⟨dt.year, dt.month, dt.day + 1⟩
  else if dt.month < 12 then ⟨dt.year, dt.month + 1, 1⟩
  else ⟨dt.year + 1, 1, 1⟩

/-- Predecessor date (one day earlier). -/
def prevDay (dt : Date) : Date :=
  if 1 < dt.day then ⟨dt.year, dt.month, dt.day - 1⟩
  else if 1 < dt.month then ⟨dt.year, dt.month - 1, daysInMonth dt.year (dt.month - 1)⟩
  else ⟨dt.year - 1, 12, 31⟩

/-- Models `target_dt + timedelta(days=n)`. -/
def addDays (dt : Date) : Nat → Date
  | 0 => dt
  | n + 1 => nextDay (addDays dt n)

/-- Models `target_dt - timedelta(days=n)`. -/
def subDays (dt : Date) : Nat → Date
  | 0 => dt
  | n + 1 => prevDay (subDays dt n)

/-- The date-window builder in `fetch_data` / `fetch_params`:
`if window:` (Python truthiness: nonzero) widen by ±window days, else both
endpoints are the target date itself. -/
def dateWindow (target : Date) (window : Nat) : Date × Date :=
  if window ≠ 0 then (subDays target window, addDays target window)
  else (target, target)

/-- Per-year range construction inside the year loop of `fetch_data`:
`datetime(year, month_start, day_start)` / `datetime(year, month_end, day_end)`.
`none` models the `except ValueError: continue` branch (the year is skipped,
e.g. Feb 29 on a non-leap year). -/
def yearRange (y : Int) (monthStart dayStart monthEnd dayEnd : Nat) :
    Option (Date × Date) :=
  match mkDate? y monthStart dayStart, mkDate? y monthEnd dayEnd with
  | some s, some e => some (s, e)
  | _, _ => none

/-- Split a character list at every occurrence of the separator character
(the semantics of Python `str.split(sep)` for a one-character separator). -/
def splitOnChar (c : Char) : List Char → List (List Char)
  | [] => [[]]
  | a :: rest =>
    if a == c then [] :: splitOnChar c rest
    else
      match splitOnChar c rest with
      | [] => [[a]]
      | g :: gs => (a :: g) :: gs

/-- True when the character list is nonempty and all decimal digits. -/
def isDigits (l : List Char) : Bool :=
  !l.isEmpty && l.all Char.isDigit

/-- The natural number denoted by a list of decimal digit characters. -/
def digitsToNat (l : List Char) : Nat :=
  l.foldl (fun n c => n * 10 + (c.toNat - '0'.toNat)) 0

/-- Models `datetime.strptime(target_date, "%Y-%m-%d")`: up to four year
digits, up to two month and day digits, and the resulting triple must be a
valid calendar date; `none` models the raised `ValueError`. -/
def parseDate (s : String) : Option Date :=
  match splitOnChar '-' s.toList with
  | [ys, ms, ds] =>
    if isDigits ys && isDigits ms && isDigits ds
        && ys.length ≤ 4 && ms.length ≤ 2 && ds.length ≤ 2 then
      mkDate? ((digitsToNat ys : Nat) : Int) (digitsToNat ms) (digitsToNat ds)
    else none
  | _ => none

/-- Unsigned decimal literal: digits with an optional fractional part. -/
def parseUnsignedFloat (l : List Char) : Option ℚ :=
  match splitOnChar '.' l with
  | [ip] => if isDigits ip then some ((digitsToNat ip : Nat) : ℚ) else none
  | [ip, fp] =>
    if isDigits ip && isDigits fp then
      some (((digitsToNat ip : Nat) : ℚ)
        + ((digitsToNat fp : Nat) : ℚ) / ((10 : ℚ) ^ fp.length))
    else none
  | _ => none

/-- Models Python `float(s)` on the decimal literals used by the query layer:
optional leading minus sign, digits, optional fractional part.  (Python also
accepts exponents, `inf`/`nan` and surrounding whitespace; those inputs parse
to `none` here, which like the Python `ValueError` takes the error path.) -/
def parseFloat (s : String) : Option ℚ :=
  match s.toList with
  | '-' :: body => (parseUnsignedFloat body).map (fun q => -q)
  | body => parseUnsignedFloat body

/-- Models Python `int(s)`: optional leading minus sign and digits. -/
def parseInt (s : String) : Option Int :=
  match s.toList with
  | '-' :: body =>
    if isDigits body then some (-((digitsToNat body : Nat) : Int)) else none
  | body =>
    if isDigits body then some ((digitsToNat body : Nat) : Int) else none

/-- A parsed per-year provider response body: `geometry.coordinates` and the
`properties.parameter` mapping (parameter code → date string → value). -/
structure YearData where
  lon : ℚ
  lat : ℚ
  elev : ℚ
  params : List (String × List (String × ℚ))
deriving DecidableEq

/-- One accepted row of the result table built by `fetch_data`: coordinates,
elevation, the date key, and one value per requested parameter. -/
structure DailyRecord where
  longitude : ℚ
  latitude : ℚ
  elevation : ℚ
  date : String
  values : List (String × ℚ)
deriving DecidableEq

/-- `params.get(p, {}).get(d, -999.00)`: the value of parameter `p` on date
`d`, defaulting to the sentinel when the parameter or the date is absent. -/
def getVal (params : List (String × List (String × ℚ))) (p d : String) : ℚ :=
  (((params.lookup p).getD []).lookup d).getD (-999)

/-- The record-building block of `fetch_data` for one successfully fetched
year (lines iterating `dates = list(params[parameters[0]].keys())`): for each
date of the first requested parameter, look up every requested parameter
(defaulting to -999.00) and append the record only when no value equals the
sentinel.  `none` models the `except Exception: continue` around the block
(`parameters[0]` IndexError on an empty list, or KeyError when the first
requested parameter is absent from the response). -/
def processYear (yd : YearData) (parameters : List String) :
    Option (List DailyRecord) :=
  match parameters with
  | [] => none
  | p0 :: _ =>
    match yd.params.lookup p0 with
    | none => none
    | some m0 =>
      let dates := m0.map Prod.fst
      some (dates.filterMap (fun d =>
        let vals := parameters.map (fun p => (p, getVal yd.params p d))
        if vals.any (fun pv => decide (pv.2 = -999)) then none
        else some ⟨yd.lon, yd.lat, yd.elev, d, vals⟩))

/-- The inclusive year range `range(start_year, end_year + 1)`. -/
def yearsList (startYear endYear : Int) : List Int :=
  (List.range (endYear + 1 - startYear).toNat).map (fun i => startYear + (i : Int))

/-- The year loop of `fetch_data`, accumulating records across years.  A year
contributes nothing when its per-year range is invalid (`continue` on
`ValueError`), when the provider call fails (`continue` on timeout / transport
error / bad status / JSON failure, modelled by the oracle returning `none`),
or when parsing the response body fails (`processYear` returning `none`). -/
def collectYears (provider : Int → Option YearData) (parameters : List String)
    (ms ds me de : Nat) : List Int → List DailyRecord
  | [] => []
  | y :: rest =>
    (match yearRange y ms ds me de with
     | none => []
     | some _ =>
       match provider y with
       | none => []
       | some yd => (processYear yd parameters).getD []) ++
    collectYears provider parameters ms ds me de rest

/-- The record list accumulated by `fetch_data` over the whole year range. -/
def collectRecords (provider : Int → Option YearData) (target : Date)
    (startYear endYear : Int) (parameters : List String) (window : Nat) :
    List DailyRecord :=
  let w := dateWindow target window
  collectYears provider parameters w.1.month w.1.day w.2.month w.2.day
    (yearsList startYear endYear)

/-- `fetch_data(lat, lon, target_date, start_year, end_year, parameters,
window)`.  Raising is modelled by `Except.error` carrying the exception
message; `lat`/`lon` only feed the request URL, which the provider oracle
abstracts. -/
def fetch_data (provider : Int → Option YearData) (lat lon : ℚ)
    (targetDate : String) (startYear endYear : Int) (parameters : List String)
    (window : Nat := 5) : Except String (List DailyRecord) :=
  match parseDate targetDate with
  | none => .error "Invalid date format. Expected YYYY-MM-DD"
  | some target =>
    if (collectRecords provider target startYear endYear parameters window).isEmpty then
      .error "No valid data returned from NASA POWER API."
    else .ok (collectRecords provider target startYear endYear parameters window)

/-- The dictionary returned by `fetch_params`. -/
structure FetchParams where
  start_year : Int
  end_year : Int
  month_start : Nat
  day_start : Nat
  month_end : Nat
  day_end : Nat
  parameters : List String
  lat : ℚ
  lon : ℚ
deriving DecidableEq

/-- `fetch_params`: parse the target date, build the ±window day window, and
echo the per-year query parameters back to the caller. -/
def fetch_params (lat lon : ℚ) (targetDate : String) (startYear endYear : Int)
    (parameters : List String) (window : Nat := 5) : Except String FetchParams :=
  match parseDate targetDate with
  | none => .error "Invalid date format. Expected YYYY-MM-DD"
  | some t =>
    let w := dateWindow t window
    .ok ⟨startYear, endYear, w.1.month, w.1.day, w.2.month, w.2.day,
      parameters, lat, lon⟩

-- ---------------------------------------------------
-- Categorization functions (thresholds copied from the source)
-- ---------------------------------------------------

def categorize_aod (aod : ℚ) : String :=
  if aod < 0.15 then "Clean"
  else if 0.15 ≤ aod ∧ aod < 0.40 then "Moderate"
  else if 0.40 ≤ aod ∧ aod < 0.80 then "Heavily Polluted"
  else "Extremely Polluted"

def categorize_cloud (ca : ℚ) : String :=
  if ca < 30 then "Sunny"
  else if ca > 70 then "Cloudy"
  else "Partly Cloudy"

def categorize_temp (t : ℚ) : String :=
  if t ≤ -10 then "Extremely Cold (<= -10°C)"
  else if -10 < t ∧ t ≤ 0 then "Very Cold (-10°C to 0°C)"
  else if 0 < t ∧ t ≤ 10 then "Cold (0°C to 10°C)"
  else if 10 < t ∧ t ≤ 20 then "Mild (10°C to 20°C)"
  else if 20 < t ∧ t ≤ 35 then "Warm (20°C to 35°C)"
  else if 35 < t ∧ t ≤ 45 then "Hot (35°C to 45°C)"
  else "Extremely Hot (> 45°C)"

def categorize_snow (s : ℚ) : String :=
  if s = 0 then "No Snow"
  else if s < 1 then "Light Snow"
  else if s < 5 then "Moderate Snow"
  else "Heavy Snow"

def categorize_rainfall (x : ℚ) : String :=
  if x = 0 then "No Rain"
  else if x < 5 then "Light Rain"
  else if x < 20 then "Moderate Rain"
  else "Heavy Rain"

def categorize_wind (ws : ℚ) : String :=
  if ws < 2 then "Calm"
  else if ws < 5 then "Light Breeze"
  else if ws < 10 then "Moderate Breeze"
  else "Strong Wind"

-- ---------------------------------------------------
-- Distribution responder
-- ---------------------------------------------------

/-- `df['Category'].value_counts(normalize=True) * 100`, returned as the dict
label → percentage: for each distinct label observed among the classified
values, its count over the total, times 100.  (pandas orders the dict by
descending count; the mapping content is order-independent.) -/
def distribution (catFun : ℚ → String) (vals : List ℚ) : List (String × ℚ) :=
  let cats := vals.map catFun
  cats.dedup.map (fun l => (l, ((cats.count l : Nat) : ℚ) / ((vals.length : Nat) : ℚ) * 100))

/-- The column `df[params]` of a caller-supplied record list: the value of key
`P` in every record, `none` when some record lacks the key (in pandas that row
would hold NaN — a float-semantics path outside this rational model; all
records produced by `fetch_data` carry every requested key; on an empty record
list pandas raises a KeyError instead, so callers below always pass a
non-empty list). -/
def columnOf (P : String) : List (List (String × ℚ)) → Option (List ℚ)
  | [] => some []
  | r :: rest =>
    match r.lookup P, columnOf P rest with
    | some v, some vs => some (v :: vs)
    | _, _ => none

/-- The distribution computation of `end_response` (after the JSON body
extraction, which the spec excludes as marshaling): select the named column,
classify every value — no sentinel filtering — and normalize the counts. -/
def endResponseDist (catFun : ℚ → String) (P : String)
    (records : List (List (String × ℚ))) : Option (List (String × ℚ)) :=
  (columnOf P records).map (distribution catFun)

/-- Modelled from the spec: the "direct category" endpoint variant (spec §4.5
variant B), absent from this source tree — "runs the Fetcher then the
Classifier+Distribution Responder in one pass" for a single parameter. -/
def directDistribution (provider : Int → Option YearData) (lat lon : ℚ)
    (targetDate : String) (startYear endYear : Int) (P : String)
    (catFun : ℚ → String) (window : Nat) : Except String (List (String × ℚ)) :=
  match fetch_data provider lat lon targetDate startYear endYear [P] window with
  | .error e => .error e
  | .ok rs =>
    match columnOf P (rs.map DailyRecord.values) with
    | none => .error "Parameter missing from records"
    | some vals => .ok (distribution catFun vals)

-- ---------------------------------------------------
-- Request validation and endpoints
-- ---------------------------------------------------

/-- `validate_request_params(*params)` over the request's query-string
arguments (an association list): collect the required names whose lookup is
`None` and raise naming all of them. -/
def validateRequestParams (ps : List String) (args : List (String × String)) :
    Except String Unit :=
  let missing := ps.filter (fun p => (args.lookup p).isNone)
  if missing.isEmpty then .ok ()
  else .error ("Missing required query parameters: " ++ String.intercalate ", " missing)

/-- `get_request_params()`: validate `lat`/`long`/`date`, then convert
(`float`, `float`, raw string, `int` with defaults 2000/2025). -/
def getRequestParams (args : List (String × String)) :
    Except String (ℚ × ℚ × String × Int × Int) :=
  match validateRequestParams ["lat", "long", "date"] args with
  | .error e => .error e
  | .ok () =>
    match parseFloat ((args.lookup "lat").getD "") with
    | none => .error "could not convert string to float"
    | some lat =>
      match parseFloat ((args.lookup "long").getD "") with
      | none => .error "could not convert string to float"
      | some lon =>
        let targetDate := (args.lookup "date").getD ""
        match (args.lookup "start_year").elim (some (2000 : Int)) parseInt with
        | none => .error "invalid literal for int()"
        | some sy =>
          match (args.lookup "end_year").elim (some (2025 : Int)) parseInt with
          | none => .error "invalid literal for int()"
          | some ey => .ok (lat, lon, targetDate, sy, ey)

/-- An HTTP response body (JSON marshaling abstracted away). -/
inductive Body where
  | err : String → Body
  | records : List DailyRecord → Body
  | fparams : FetchParams → Body
deriving DecidableEq

/-- The common shape of the six GET parameter endpoints (`/api/aod`,
`/api/cloud`, …): `get_request_params()` then `fetch_params` for the fixed
parameter code, any exception answered as HTTP 400 with the message. -/
def apiParamEndpoint (code : String) (args : List (String × String)) :
    Nat × Body :=
  match getRequestParams args with
  | .error e => (400, .err e)
  | .ok (lat, lon, targetDate, sy, ey) =>
    match fetch_params lat lon targetDate sy ey [code] with
    | .error e => (400, .err e)
    | .ok fp => (200, .fparams fp)

def api_aod : List (String × String) → Nat × Body :=
  apiParamEndpoint "AOD_55_ADJ"

/-- The default `parameters` query string of `/api/timeseries`. -/
def defaultParams : String :=
  "AOD_55_ADJ,CLOUD_AMT,T2M,SNODP,PRECTOTCORR,WS10M"

/-- Models Python `str.strip()`: remove leading and trailing whitespace. -/
def strip (s : String) : String :=
  String.mk (((s.toList.dropWhile Char.isWhitespace).reverse.dropWhile
    Char.isWhitespace).reverse)

/-- The parameter list of `/api/timeseries`:
`[p.strip() for p in params.split(',')]`. -/
def timeseriesParamList (args : List (String × String)) : List String :=
  (splitOnChar ',' ((args.lookup "parameters").getD defaultParams).toList).map
    (fun l => strip (String.mk l))

/-- `/api/timeseries`: parse the query arguments (same code as
`get_request_params`), run `fetch_data` with `window=0`, and answer any raised
exception as HTTP 400 carrying its message. -/
def api_timeseries (provider : Int → Option YearData)
    (args : List (String × String)) : Nat × Body :=
  match getRequestParams args with
  | .error e => (400, .err e)
  | .ok (lat, lon, targetDate, sy, ey) =>
    match fetch_data provider lat lon targetDate sy ey
        (timeseriesParamList args) 0 with
    | .error e => (400, .err e)
    | .ok recs => (200, .records recs)

-- ---------------------------------------------------
-- Helper lemmas
-- ---------------------------------------------------

theorem lookup_map_pair (g : String → ℚ) (l : String) :
    ∀ L : List String, (L.map (fun x => (x, g x))).lookup l =
      if l ∈ L then some (g l) else none := by
  intro L
  induction L with
  | nil => simp
  | cons a rest ih =>
    by_cases h : l = a
    · subst h
      simp [List.lookup]
    · have hb : (l == a) = false := by simp [h]
      simp [List.lookup, hb, h, ih]

theorem distribution_lookup (catFun : ℚ → String) (vals : List ℚ) (l : String) :
    (distribution catFun vals).lookup l =
      if l ∈ (vals.map catFun).dedup then
        some (((vals.map catFun).count l : ℚ) / ((vals.length : Nat) : ℚ) * 100)
      else none := by
  unfold distribution
  exact lookup_map_pair _ _ _

theorem sum_map_mul_right (f : String → ℚ) (k : ℚ) :
    ∀ L : List String, (L.map (fun x => f x * k)).sum = (L.map f).sum * k := by
  intro L
  induction L with
  | nil => simp
  | cons a rest ih => simp [ih]; ring

theorem distribution_sum (catFun : ℚ → String) (vals : List ℚ) (h : vals ≠ []) :
    ((distribution catFun vals).map Prod.snd).sum = 100 := by
  unfold distribution
  have hn : ((vals.length : Nat) : ℚ) ≠ 0 := by
    simpa using h
  rw [List.map_map]
  have hfun : (Prod.snd ∘ fun l : String =>
      (l, ((((vals.map catFun).count l : Nat) : ℚ) / ((vals.length : Nat) : ℚ)) * 100)) =
      fun l : String => (((vals.map catFun).count l : Nat) : ℚ) *
        (100 / ((vals.length : Nat) : ℚ)) := by
    funext l
    simp only [Function.comp]
    ring
  rw [hfun, sum_map_mul_right]
  have hcast : ((vals.map catFun).dedup.map
      (fun l => (((vals.map catFun).count l : Nat) : ℚ))).sum =
      ((((vals.map catFun).dedup.map (fun l => (vals.map catFun).count l)).sum : Nat) : ℚ) := by
    rw [Nat.cast_list_sum, List.map_map]
    rfl
  rw [hcast, List.sum_map_count_dedup_eq_length, List.length_map]
  field_simp

theorem lookup_eq_none_iff {β : Type} (d : String) :
    ∀ m : List (String × β), m.lookup d = none ↔ d ∉ m.map Prod.fst := by
  intro m
  induction m with
  | nil => simp
  | cons kv rest ih =>
    by_cases h : d = kv.1
    · subst h
      simp [List.lookup]
    · have hb : (d == kv.1) = false := by simp [h]
      simp [List.lookup, hb, h, ih]

theorem mkDate?_year {y : Int} {m d : Nat} {dt : Date}
    (h : mkDate? y m d = some dt) : dt.year = y := by
  unfold mkDate? at h
  split at h
  · cases h
    rfl
  · cases h

-- ---------------------------------------------------
-- Claim theorems
-- ---------------------------------------------------

/-- C1: `categorize_aod` returns "Clean" iff aod < 0.15, "Moderate" iff
0.15 ≤ aod < 0.40, "Heavily Polluted" iff 0.40 ≤ aod < 0.80, and
"Extremely Polluted" iff aod ≥ 0.80; in particular 0.15 yields "Moderate"
and 0.40 yields "Heavily Polluted". -/
theorem categorize_aod_spec (aod : ℚ) :
    (categorize_aod aod = "Clean" ↔ aod < 0.15) ∧
    (categorize_aod aod = "Moderate" ↔ 0.15 ≤ aod ∧ aod < 0.40) ∧
    (categorize_aod aod = "Heavily Polluted" ↔ 0.40 ≤ aod ∧ aod < 0.80) ∧
    (categorize_aod aod = "Extremely Polluted" ↔ 0.80 ≤ aod) ∧
    categorize_aod 0.15 = "Moderate" ∧
    categorize_aod 0.40 = "Heavily Polluted" := by
  have key : ∀ x : ℚ, (categorize_aod x = "Clean" ↔ x < 0.15) ∧
      (categorize_aod x = "Moderate" ↔ 0.15 ≤ x ∧ x < 0.40) ∧
      (categorize_aod x = "Heavily Polluted" ↔ 0.40 ≤ x ∧ x < 0.80) ∧
      (categorize_aod x = "Extremely Polluted" ↔ 0.80 ≤ x) := by
    intro x
    unfold categorize_aod
    split_ifs with h1 h2 h3
    · exact ⟨iff_of_true rfl h1,
        iff_of_false (by decide) (fun h => absurd h1 (not_lt.mpr h.1)),
        iff_of_false (by decide) (fun h => by linarith [h.1]),
        iff_of_false (by decide) (fun h => by linarith)⟩
    · exact ⟨iff_of_false (by decide) (fun h => absurd h h1),
        iff_of_true rfl h2,
        iff_of_false (by decide) (fun h => by linarith [h.1, h2.2]),
        iff_of_false (by decide) (fun h => by linarith [h2.2])⟩
    · exact ⟨iff_of_false (by decide) (fun h => by linarith [h3.1]),
        iff_of_false (by decide) (fun h => by linarith [h.2, h3.1]),
        iff_of_true rfl h3,
        iff_of_false (by decide) (fun h => by linarith [h3.2])⟩
    · have hx1 : 0.15 ≤ x := not_lt.mp h1
      have hx2 : 0.40 ≤ x := by
        by_contra hc
        exact h2 ⟨hx1, not_le.mp hc⟩
      have hx3 : 0.80 ≤ x := by
        by_contra hc
        exact h3 ⟨hx2, not_le.mp hc⟩
      exact ⟨iff_of_false (by decide) (fun h => by linarith),
        iff_of_false (by decide) (fun h => by linarith [h.2]),
        iff_of_false (by decide) (fun h => by linarith [h.2]),
        iff_of_true rfl hx3⟩
  obtain ⟨k1, k2, k3, k4⟩ := key aod
  refine ⟨k1, k2, k3, k4, ?_, ?_⟩
  · exact ((key 0.15).2.1).mpr (by norm_num)
  · exact ((key 0.40).2.2.1).mpr (by norm_num)

/-- C6 counterexample: the claim "exactly 0 °C is categorized as Cold" is
false on the code — `categorize_temp 0` is not the Cold label. -/
theorem categorize_temp_zero_not_cold :
    categorize_temp 0 ≠ "Cold (0°C to 10°C)" := by decide

/-- C6 amended: an input of exactly 0 °C is categorized as Very Cold (the
`-10 < t <= 0` branch is closed at 0), not Cold. -/
theorem categorize_temp_zero :
    categorize_temp 0 = "Very Cold (-10°C to 0°C)" := by decide

/-- C2: in the per-year record-building of `fetch_data`, a record for a date
is appended to the output iff no requested parameter's value for that date
equals the sentinel -999.00, a parameter with no entry for that date counting
as the sentinel (all-or-nothing completeness per day). -/
theorem processYear_record_iff (yd : YearData) (ps : List String) (d : String)
    (out : List DailyRecord) (hout : processYear yd ps = some out) :
    (∃ r ∈ out, r.date = d) ↔ ∀ p ∈ ps, getVal yd.params p d ≠ -999 := by
  cases ps with
  | nil => simp [processYear] at hout
  | cons p0 rest =>
    cases hm : yd.params.lookup p0 with
    | none =>
      rw [processYear, hm] at hout
      cases hout
    | some m0 =>
      rw [processYear, hm] at hout
      injection hout with hout
      subst hout
      have hbad : ∀ d' : String,
          ((((p0 :: rest).map (fun p => (p, getVal yd.params p d'))).any
            (fun pv => decide (pv.2 = -999))) = true) ↔
          ∃ p ∈ p0 :: rest, getVal yd.params p d' = -999 := by
        intro d'
        rw [List.any_eq_true]
        constructor
        · rintro ⟨pv, hpv, hdec⟩
          rw [List.mem_map] at hpv
          obtain ⟨p, hp, rfl⟩ := hpv
          exact ⟨p, hp, of_decide_eq_true hdec⟩
        · rintro ⟨p, hp, hv⟩
          exact ⟨(p, getVal yd.params p d'), List.mem_map_of_mem _ hp,
            decide_eq_true hv⟩
      constructor
      · rintro ⟨r, hr, hrd⟩
        rw [List.mem_filterMap] at hr
        obtain ⟨d', hd', hfd⟩ := hr
        dsimp only at hfd
        by_cases hc : ((((p0 :: rest).map (fun p => (p, getVal yd.params p d'))).any
            (fun pv => decide (pv.2 = -999))) = true)
        · rw [if_pos hc] at hfd
          cases hfd
        · rw [if_neg hc] at hfd
          injection hfd with hfd
          subst hfd
          have hdd : d' = d := hrd
          subst hdd
          intro p hp hv
          exact hc ((hbad d').mpr ⟨p, hp, hv⟩)
      · intro hall
        have h0 : getVal yd.params p0 d ≠ -999 := hall p0 (List.mem_cons_self _ _)
        have hsome : m0.lookup d ≠ none := by
          intro hnone
          apply h0
          unfold getVal
          rw [hm]
          simp [hnone]
        have hd : d ∈ m0.map Prod.fst := by
          by_contra hdn
          exact hsome ((lookup_eq_none_iff d m0).mpr hdn)
        have hcn : ¬ ((((p0 :: rest).map (fun p => (p, getVal yd.params p d))).any
            (fun pv => decide (pv.2 = -999))) = true) := by
          intro hc
          obtain ⟨p, hp, hv⟩ := (hbad d).mp hc
          exact hall p hp hv
        refine ⟨⟨yd.lon, yd.lat, yd.elev, d,
          (p0 :: rest).map (fun p => (p, getVal yd.params p d))⟩, ?_, rfl⟩
        rw [List.mem_filterMap]
        refine ⟨d, hd, ?_⟩
        dsimp only
        rw [if_neg hcn]

/-- C2 witness: a concrete two-day response where only the sentinel-free day
produces a record. -/
theorem processYear_record_iff_witness :
    (∃ r ∈ [(⟨1, 2, 3, "20230615", [("T2M", (5 : ℚ))]⟩ : DailyRecord)],
        r.date = "20230615") ↔
      ∀ p ∈ ["T2M"],
        getVal [("T2M", [("20230615", (5 : ℚ)), ("20230616", (-999 : ℚ))])]
          p "20230615" ≠ -999 :=
  processYear_record_iff
    ⟨1, 2, 3, [("T2M", [("20230615", 5), ("20230616", -999)])]⟩
    ["T2M"] "20230615"
    [⟨1, 2, 3, "20230615", [("T2M", 5)]⟩] (by decide)

/-- C3: the date-window builder returns (target − window_days, target +
window_days), both equal to the target date when window_days is 0; and every
per-year range the year loop constructs by reapplying the window's (month,
day) pairs to a year lies in that very year — an invalid combination (e.g.
Feb 29 on a non-leap year) produces no range for that year at all. -/
theorem dateWindow_spec (target : Date) (w : Nat) (y : Int) :
    dateWindow target w = (subDays target w, addDays target w) ∧
    (w = 0 → dateWindow target w = (target, target)) ∧
    (∀ s e, yearRange y (dateWindow target w).1.month (dateWindow target w).1.day
        (dateWindow target w).2.month (dateWindow target w).2.day = some (s, e) →
      s.year = y ∧ e.year = y) := by
  refine ⟨?_, ?_, ?_⟩
  · unfold dateWindow
    by_cases h : w = 0
    · subst h
      simp [addDays, subDays]
    · rw [if_pos h]
  · intro h
    subst h
    simp [dateWindow]
  · intro s e hse
    unfold yearRange at hse
    cases hms : mkDate? y (dateWindow target w).1.month (dateWindow target w).1.day with
    | none =>
      rw [hms] at hse
      cases hse
    | some ds =>
      cases hme : mkDate? y (dateWindow target w).2.month (dateWindow target w).2.day with
      | none =>
        rw [hms, hme] at hse
        cases hse
      | some de =>
        rw [hms, hme] at hse
        simp only [Option.some.injEq, Prod.mk.injEq] at hse
        obtain ⟨rfl, rfl⟩ := hse
        exact ⟨mkDate?_year hms, mkDate?_year hme⟩

/-- C3 witness: window 0 keeps the target date, and the 2024 range built from
the (6, 15) pair lies in 2024. -/
theorem dateWindow_spec_witness :
    dateWindow ⟨2023, 6, 15⟩ 0 = (⟨2023, 6, 15⟩, ⟨2023, 6, 15⟩) ∧
    ((⟨2024, 6, 15⟩ : Date).year = 2024 ∧ (⟨2024, 6, 15⟩ : Date).year = 2024) := by
  have h := dateWindow_spec ⟨2023, 6, 15⟩ 0 2024
  exact ⟨h.2.1 rfl, h.2.2 ⟨2024, 6, 15⟩ ⟨2024, 6, 15⟩ (by decide)⟩

/-- C10: with start_year > end_year, `fetch_data` iterates zero years,
accumulates no records, and raises the "no data" error for every provider,
parameter list, window and validly formatted target date. -/
theorem fetch_data_empty_year_range (provider : Int → Option YearData)
    (lat lon : ℚ) (targetDate : String) (t : Date) (sy ey : Int)
    (ps : List String) (w : Nat) (hparse : parseDate targetDate = some t)
    (hlt : ey < sy) :
    fetch_data provider lat lon targetDate sy ey ps w =
      .error "No valid data returned from NASA POWER API." := by
  have hy : yearsList sy ey = [] := by
    unfold yearsList
    have h0 : (ey + 1 - sy).toNat = 0 := by
      apply Int.toNat_of_nonpos
      omega
    rw [h0]
    rfl
  have hc : collectRecords provider t sy ey ps w = [] := by
    unfold collectRecords
    rw [hy]
    simp only [collectYears]
  simp only [fetch_data, hparse, hc, List.isEmpty_nil, if_true]

/-- C10 witness: start_year 2025 > end_year 2000 yields the "no data" error
regardless of the provider. -/
theorem fetch_data_empty_year_range_witness :
    fetch_data (fun _ => none) 1 2 "2023-06-15" 2025 2000 ["T2M"] 5 =
      .error "No valid data returned from NASA POWER API." :=
  fetch_data_empty_year_range (fun _ => none) 1 2 "2023-06-15" ⟨2023, 6, 15⟩
    2025 2000 ["T2M"] 5 (by decide) (by decide)

/-- C5: when every year of the range contributes no record, `fetch_data`
raises the "no data" error instead of returning an empty result set, and the
`/api/timeseries` endpoint surfaces it as an HTTP 400 error response. -/
theorem no_data_yields_400 (provider : Int → Option YearData)
    (args : List (String × String)) (lat lon : ℚ) (targetDate : String)
    (t : Date) (sy ey : Int)
    (hargs : getRequestParams args = .ok (lat, lon, targetDate, sy, ey))
    (hparse : parseDate targetDate = some t)
    (hempty : collectRecords provider t sy ey (timeseriesParamList args) 0 = []) :
    fetch_data provider lat lon targetDate sy ey (timeseriesParamList args) 0 =
      .error "No valid data returned from NASA POWER API." ∧
    api_timeseries provider args =
      (400, .err "No valid data returned from NASA POWER API.") := by
  have hf : fetch_data provider lat lon targetDate sy ey
      (timeseriesParamList args) 0 =
      .error "No valid data returned from NASA POWER API." := by
    simp only [fetch_data, hparse, hempty, List.isEmpty_nil, if_true]
  refine ⟨hf, ?_⟩
  simp only [api_timeseries, hargs, hf]

/-- C5 witness: a provider that fails for every year makes `/api/timeseries`
answer 400 with the "no data" message. -/
theorem no_data_yields_400_witness :
    fetch_data (fun _ => none) 1 2 "2023-06-15" 2000 2025
      (timeseriesParamList [("lat", "1"), ("long", "2"), ("date", "2023-06-15")]) 0 =
      .error "No valid data returned from NASA POWER API." ∧
    api_timeseries (fun _ => none) [("lat", "1"), ("long", "2"), ("date", "2023-06-15")] =
      (400, .err "No valid data returned from NASA POWER API.") :=
  no_data_yields_400 (fun _ => none) [("lat", "1"), ("long", "2"), ("date", "2023-06-15")]
    1 2 "2023-06-15" ⟨2023, 6, 15⟩ 2000 2025 (by decide) (by decide) (by decide)

/-- C8: a GET request to a parameter endpoint missing any of the required
query parameters lat/long/date is answered with HTTP 400 and an error message
naming exactly the missing parameters. -/
theorem missing_params_yields_400 (code : String) (args : List (String × String))
    (hmiss : (["lat", "long", "date"].filter (fun p => (args.lookup p).isNone)) ≠ []) :
    apiParamEndpoint code args = (400, .err ("Missing required query parameters: "
      ++ String.intercalate ", "
        (["lat", "long", "date"].filter (fun p => (args.lookup p).isNone)))) := by
  cases hf : ["lat", "long", "date"].filter (fun p => (args.lookup p).isNone) with
  | nil => exact absurd hf hmiss
  | cons a as =>
    simp only [apiParamEndpoint, getRequestParams, validateRequestParams, hf,
      List.isEmpty_cons, Bool.false_eq_true, if_false]

/-- C8 witness: omitting `lat` alone produces a 400 naming `lat`. -/
theorem missing_params_yields_400_witness :
    apiParamEndpoint "AOD_55_ADJ" [("long", "1"), ("date", "2023-06-15")] =
      (400, .err "Missing required query parameters: lat") :=
  (missing_params_yields_400 "AOD_55_ADJ" [("long", "1"), ("date", "2023-06-15")]
    (by decide)).trans (by decide)

theorem columnOf_length (P : String) :
    ∀ (rs : List (List (String × ℚ))) (vals : List ℚ),
      columnOf P rs = some vals → vals.length = rs.length := by
  intro rs
  induction rs with
  | nil =>
    intro vals h
    simp only [columnOf, Option.some.injEq] at h
    subst h
    rfl
  | cons r rest ih =>
    intro vals h
    simp only [columnOf] at h
    cases hv : r.lookup P with
    | none =>
      rw [hv] at h
      cases h
    | some v =>
      cases hrest : columnOf P rest with
      | none =>
        rw [hv, hrest] at h
        cases h
      | some vs =>
        rw [hv, hrest] at h
        simp only [Option.some.injEq] at h
        subst h
        simp [ih vs hrest]

/-- C4: for a non-empty record set containing the named parameter, the
distribution computed by `end_response` maps each distinct observed label to
(count of records bearing it / total records) × 100, its percentages sum to
100, and a label occurring in zero records is absent from the mapping. -/
theorem end_response_distribution_spec (catFun : ℚ → String) (P : String)
    (records : List (List (String × ℚ))) (vals : List ℚ)
    (dist : List (String × ℚ)) (hcol : columnOf P records = some vals)
    (hne : records ≠ []) (hdist : endResponseDist catFun P records = some dist) :
    (∀ l ∈ (vals.map catFun).dedup,
      dist.lookup l =
        some ((((vals.map catFun).count l : Nat) : ℚ) /
          ((vals.length : Nat) : ℚ) * 100)) ∧
    (dist.map Prod.snd).sum = 100 ∧
    (∀ l, (vals.map catFun).count l = 0 → dist.lookup l = none) := by
  have hvals : vals ≠ [] := by
    intro h
    subst h
    have hlen := columnOf_length P records [] hcol
    cases records with
    | nil => exact hne rfl
    | cons a b => simp at hlen
  have hd : dist = distribution catFun vals := by
    unfold endResponseDist at hdist
    rw [hcol] at hdist
    simp only [Option.map_some', Option.some.injEq] at hdist
    exact hdist.symm
  subst hd
  refine ⟨?_, distribution_sum catFun vals hvals, ?_⟩
  · intro l hl
    rw [distribution_lookup, if_pos hl]
  · intro l hl
    rw [distribution_lookup, if_neg]
    intro hmem
    rw [List.mem_dedup] at hmem
    rw [List.count_eq_zero] at hl
    exact hl hmem

/-- C4 witness: a single record bearing the parameter; its sole label gets
100 % and every other label is absent. -/
theorem end_response_distribution_spec_witness :
    (∀ l ∈ (([0] : List ℚ).map categorize_aod).dedup,
      (distribution categorize_aod [0]).lookup l =
        some ((((([0] : List ℚ).map categorize_aod).count l : Nat) : ℚ) /
          ((([0] : List ℚ).length : Nat) : ℚ) * 100)) ∧
    ((distribution categorize_aod [0]).map Prod.snd).sum = 100 ∧
    (∀ l, (([0] : List ℚ).map categorize_aod).count l = 0 →
      (distribution categorize_aod [0]).lookup l = none) :=
  end_response_distribution_spec categorize_aod "A" [[("A", 0)]] [0]
    (distribution categorize_aod [0]) (by decide) (by decide) rfl

/-- C9: the `_after_res` distribution computation applies no sentinel
filtering — a value of -999.00 is classified by the threshold function like
any other value (it falls into the lowest AOD bucket "Clean" and the lowest
temperature bucket) and contributes a positive share to the distribution
instead of being dropped as missing data. -/
theorem sentinel_not_filtered (records : List (List (String × ℚ)))
    (P : String) (vals : List ℚ) (hcol : columnOf P records = some vals)
    (hmem : (-999 : ℚ) ∈ vals) :
    categorize_aod (-999) = "Clean" ∧
    categorize_temp (-999) = "Extremely Cold (<= -10°C)" ∧
    ∃ dist, endResponseDist categorize_aod P records = some dist ∧
      ∃ pct, dist.lookup "Clean" = some pct ∧ 0 < pct := by
  have hclean : categorize_aod (-999) = "Clean" := by
    norm_num [categorize_aod]
  have hmm : categorize_aod (-999) ∈ (vals.map categorize_aod).dedup := by
    rw [List.mem_dedup]
    exact List.mem_map_of_mem _ hmem
  have hc : 0 < (vals.map categorize_aod).count (categorize_aod (-999)) :=
    List.count_pos_iff.mpr (List.mem_dedup.mp hmm)
  have hn : 0 < ((vals.length : Nat) : ℚ) := by
    have hv : vals ≠ [] := by
      intro h
      subst h
      cases hmem
    have := List.length_pos.mpr hv
    exact_mod_cast this
  have hpos : (0 : ℚ) <
      (((vals.map categorize_aod).count (categorize_aod (-999)) : Nat) : ℚ) /
        ((vals.length : Nat) : ℚ) * 100 := by
    apply mul_pos
    · apply div_pos
      · exact_mod_cast hc
      · exact hn
    · norm_num
  refine ⟨hclean, by decide, distribution categorize_aod vals, ?_, ?_⟩
  · simp [endResponseDist, hcol]
  · refine ⟨_, ?_, hpos⟩
    rw [← hclean, distribution_lookup, if_pos hmm]

/-- C9 witness: a one-record set whose only value is the sentinel still
yields a distribution, in the "Clean" bucket with positive share. -/
theorem sentinel_not_filtered_witness :
    categorize_aod (-999) = "Clean" ∧
    categorize_temp (-999) = "Extremely Cold (<= -10°C)" ∧
    ∃ dist,
      endResponseDist categorize_aod "AOD_55_ADJ" [[("AOD_55_ADJ", -999)]] =
        some dist ∧
      ∃ pct, dist.lookup "Clean" = some pct ∧ 0 < pct :=
  sentinel_not_filtered [[("AOD_55_ADJ", -999)]] "AOD_55_ADJ" [-999]
    (by decide) (by decide)

theorem processYear_keys (yd : YearData) (ps : List String)
    (out : List DailyRecord) (hout : processYear yd ps = some out) :
    ∀ r ∈ out, r.values.map Prod.fst = ps := by
  cases ps with
  | nil => simp [processYear] at hout
  | cons p0 rest =>
    cases hm : yd.params.lookup p0 with
    | none =>
      rw [processYear, hm] at hout
      cases hout
    | some m0 =>
      rw [processYear, hm] at hout
      injection hout with hout
      subst hout
      intro r hr
      rw [List.mem_filterMap] at hr
      obtain ⟨d', hd', hfd⟩ := hr
      dsimp only at hfd
      by_cases hc : ((((p0 :: rest).map (fun p => (p, getVal yd.params p d'))).any
          (fun pv => decide (pv.2 = -999))) = true)
      · rw [if_pos hc] at hfd
        cases hfd
      · rw [if_neg hc] at hfd
        injection hfd with hfd
        subst hfd
        show (List.map (fun p => (p, getVal yd.params p d')) (p0 :: rest)).map
          Prod.fst = p0 :: rest
        rw [List.map_map]
        have hid : (Prod.fst ∘ fun p : String => (p, getVal yd.params p d')) = id :=
          funext fun p => rfl
        rw [hid, List.map_id]

theorem collectYears_mem (provider : Int → Option YearData) (ps : List String)
    (ms ds me de : Nat) :
    ∀ (ys : List Int) (r : DailyRecord),
      r ∈ collectYears provider ps ms ds me de ys →
      ∃ y yd out, provider y = some yd ∧ processYear yd ps = some out ∧ r ∈ out := by
  intro ys
  induction ys with
  | nil =>
    intro r hr
    simp [collectYears] at hr
  | cons y rest ih =>
    intro r hr
    rw [collectYears, List.mem_append] at hr
    cases hr with
    | inl h =>
      cases hyr : yearRange y ms ds me de with
      | none =>
        rw [hyr] at h
        cases h
      | some rg =>
        rw [hyr] at h
        cases hp : provider y with
        | none =>
          rw [hp] at h
          cases h
        | some yd =>
          rw [hp] at h
          dsimp only at h
          cases ho : processYear yd ps with
          | none =>
            rw [ho] at h
            cases h
          | some out =>
            rw [ho] at h
            exact ⟨y, yd, out, hp, ho, h⟩
    | inr h => exact ih r h

theorem fetch_data_keys (provider : Int → Option YearData) (lat lon : ℚ)
    (targetDate : String) (sy ey : Int) (ps : List String) (w : Nat)
    (rs : List DailyRecord)
    (h : fetch_data provider lat lon targetDate sy ey ps w = .ok rs) :
    ∀ r ∈ rs, r.values.map Prod.fst = ps := by
  unfold fetch_data at h
  cases hp : parseDate targetDate with
  | none =>
    rw [hp] at h
    cases h
  | some t =>
    rw [hp] at h
    dsimp only at h
    by_cases he : ((collectRecords provider t sy ey ps w).isEmpty = true)
    · rw [if_pos he] at h
      cases h
    · rw [if_neg he] at h
      injection h with h
      subst h
      intro r hr
      unfold collectRecords at hr
      obtain ⟨y, yd, out, _, ho, hro⟩ :=
        collectYears_mem provider ps _ _ _ _ _ r hr
      exact processYear_keys yd ps out ho r hro

theorem columnOf_exists (P : String) :
    ∀ rs : List (List (String × ℚ)), (∀ r ∈ rs, P ∈ r.map Prod.fst) →
      ∃ vals, columnOf P rs = some vals := by
  intro rs
  induction rs with
  | nil => exact fun _ => ⟨[], rfl⟩
  | cons r rest ih =>
    intro hall
    obtain ⟨vs, hvs⟩ := ih (fun r' hr' => hall r' (List.mem_cons_of_mem _ hr'))
    cases hv : r.lookup P with
    | none =>
      exact absurd (hall r (List.mem_cons_self _ _))
        ((lookup_eq_none_iff P r).mp hv)
    | some v =>
      exact ⟨v :: vs, by simp [columnOf, hv, hvs]⟩

/-- C7: feeding the record set produced by a `/api/timeseries`-style
`fetch_data` call for a single parameter into the `_after_res` distribution
computation yields exactly the distribution that the spec's direct
fetch-and-classify variant computes for the same query against the same
provider responses. -/
theorem round_trip_distribution (provider : Int → Option YearData)
    (lat lon : ℚ) (targetDate : String) (sy ey : Int) (P : String)
    (catFun : ℚ → String) (rs : List DailyRecord)
    (h : fetch_data provider lat lon targetDate sy ey [P] 0 = .ok rs) :
    ∃ dist, endResponseDist catFun P (rs.map DailyRecord.values) = some dist ∧
      directDistribution provider lat lon targetDate sy ey P catFun 0 =
        .ok dist := by
  have hkeys : ∀ v ∈ rs.map DailyRecord.values, P ∈ v.map Prod.fst := by
    intro v hv
    rw [List.mem_map] at hv
    obtain ⟨r, hr, rfl⟩ := hv
    rw [fetch_data_keys provider lat lon targetDate sy ey [P] 0 rs h r hr]
    exact List.mem_singleton_self P
  obtain ⟨vals, hvals⟩ := columnOf_exists P (rs.map DailyRecord.values) hkeys
  refine ⟨distribution catFun vals, ?_, ?_⟩
  · simp [endResponseDist, hvals]
  · simp only [directDistribution, h, hvals]

/-- C7 witness: a one-year, one-day provider response round-trips to the
same distribution by both routes. -/
theorem round_trip_distribution_witness :
    ∃ dist,
      endResponseDist categorize_temp "T2M"
        (([⟨1, 2, 3, "20230615", [("T2M", (5 : ℚ))]⟩] :
          List DailyRecord).map DailyRecord.values) = some dist ∧
      directDistribution
        (fun y => if y = 2023 then
          some ⟨1, 2, 3, [("T2M", [("20230615", (5 : ℚ))])]⟩ else none)
        1 2 "2023-06-15" 2023 2023 "T2M" categorize_temp 0 = .ok dist :=
  round_trip_distribution
    (fun y => if y = 2023 then
      some ⟨1, 2, 3, [("T2M", [("20230615", (5 : ℚ))])]⟩ else none)
    1 2 "2023-06-15" 2023 2023 "T2M" categorize_temp
    [⟨1, 2, 3, "20230615", [("T2M", 5)]⟩] (by decide)

end HawaHawai
